import Mathlib

/-!
Shallow embedding of the IoT dashboard client (`src/IoTDevices.js`):
device-catalog normalization, telemetry/alert fetch handlers with their
fallbacks, the attack-state correlation in `renderDeviceStatus`, and the
heatmap color mapping `getColor`.  Numbers are modelled as rationals
(JS numbers at the magnitudes used are exact on these values), timestamps
as rational milliseconds since the epoch (the value `Date` subtraction
computes with).
-/

namespace IoTDevices

/-- Predicate `startsWithChars s p`: `p` is a prefix of `s` (character-by-character). -/
def startsWithChars : List Char → List Char → Bool
  | _, [] => true
  | [], _ :: _ => false
  | c :: s, p :: ps => c == p && startsWithChars s ps

/-- JS `String.prototype.includes` on character lists: the pattern occurs as a
contiguous substring. -/
def includesChars : List Char → List Char → Bool
  | _, [] => true
  | [], _ :: _ => false
  | c :: rest, p :: ps =>
    startsWithChars (c :: rest) (p :: ps) || includesChars rest (p :: ps)

/-- JS `s.includes(pat)`. -/
def strIncludes (s pat : String) : Bool :=
  includesChars s.data pat.data

/-- A raw device record as returned by `GET /api/devices`
(`{ client_id, device_type, name }`; the `status` field is never read by the
normalization code). -/
structure RawDevice where
  client_id : String
  device_type : String
  name : String
deriving DecidableEq, Repr

/-- The filter predicate of `fetchDevices` (src/IoTDevices.js lines 226-233):
recognized legacy and sensor-qualified device types. -/
def isIoTDevice (d : RawDevice) : Bool :=
  d.device_type == "mouse" ||
  d.device_type == "keyboard" ||
  d.device_type == "headset" ||
  d.device_type == "mouse_sensor" ||
  d.device_type == "keyboard_sensor" ||
  d.device_type == "headset_sensor"

/-- The per-device renaming step of `fetchDevices` (src/IoTDevices.js lines
236-260): three branches tried in order (mouse, keyboard, headset), each
firing when the device type equals the legacy kind or the name contains the
corresponding capitalized word; the firing branch appends `" Sensor"` to the
name unless the name already contains `"Sensor"`, and rewrites the type to
its sensor-qualified form only when it equals that branch's legacy kind. -/
def renameDevice (d : RawDevice) : RawDevice :=
  if d.device_type == "mouse" || strIncludes d.name "Mouse" then
    { d with
      name := if strIncludes d.name "Sensor" then d.name else d.name ++ " Sensor",
      device_type := if d.device_type == "mouse" then "mouse_sensor" else d.device_type }
  else if d.device_type == "keyboard" || strIncludes d.name "Keyboard" then
    { d with
      name := if strIncludes d.name "Sensor" then d.name else d.name ++ " Sensor",
      device_type := if d.device_type == "keyboard" then "keyboard_sensor" else d.device_type }
  else if d.device_type == "headset" || strIncludes d.name "Headset" then
    { d with
      name := if strIncludes d.name "Sensor" then d.name else d.name ++ " Sensor",
      device_type := if d.device_type == "headset" then "headset_sensor" else d.device_type }
  else d

/-- The filter-and-normalize step of `fetchDevices` applied to the raw
`data.devices` array: filter to recognized kinds, then rename. -/
def fetchDevicesNormalize (ds : List RawDevice) : List RawDevice :=
  (ds.filter isIoTDevice).map renameDevice

/-- The selection update of `fetchDevices` (src/IoTDevices.js lines 265-267):
`if (renamedDevices.length > 0 && !selectedDevice) setSelectedDevice(renamedDevices[0].client_id)`.
The selection is only written when it was previously empty. -/
def fetchDevicesSelect (sel : Option String) (renamed : List RawDevice) : Option String :=
  match renamed, sel with
  | d :: _, none => some d.client_id
  | _, s => s

/-- Telemetry sample metrics (`metrics` object of a sample). -/
structure Metrics where
  clicks_per_second : ℚ
  movements_count : ℚ
  dpi : ℚ
  polling_rate : ℚ
  avg_click_distance : ℚ
  button_count : ℚ
deriving DecidableEq, Repr

/-- The `status` object of a telemetry sample.  Fields other than `under_attack`
may be absent (modelled with `Option`). -/
structure DeviceStatus where
  under_attack : Bool
  attack_duration : Option ℚ
  battery_level : Option ℚ
  connection_quality : Option ℚ
deriving DecidableEq, Repr

/-- One telemetry sample from `GET /api/metrics/iot_data/{deviceId}`.
`timestamp` is in milliseconds since the epoch; `metrics` and `status` may be
absent. -/
structure TelemetrySample where
  device_id : String
  session_id : String
  timestamp : ℚ
  metrics : Option Metrics
  status : Option DeviceStatus
deriving DecidableEq, Repr

/-- The `details` object of a security alert (the shape the fallback produces). -/
structure AlertDetails where
  attack_type : String
  intensity : ℚ
  threshold : ℚ
deriving DecidableEq, Repr

/-- One security alert from `GET /api/security/device_alerts/{deviceId}`.
`timestamp` in milliseconds since the epoch. -/
structure SecurityAlert where
  timestamp : ℚ
  event_type : String
  details : Option AlertDetails
  severity : String
deriving DecidableEq, Repr

/-- The component state touched by the fetch handlers: the device list, the
selected device id (`null` modelled as `none`), and the single shared
`deviceData` / `securityAlerts` arrays. -/
structure DashState where
  devices : List RawDevice
  selectedDevice : Option String
  deviceData : List TelemetrySample
  securityAlerts : List SecurityAlert
deriving DecidableEq, Repr

/-- Handler `setSelectedDevice` (the dropdown change handler). -/
def setSelectedDevice (s : DashState) (id : Option String) : DashState :=
  { s with selectedDevice := id }

/-- The success path of `fetchDevices` applied to a raw catalog response
(src/IoTDevices.js lines 226-267): store the filtered-and-renamed list and
auto-select the first device only when no device was selected. -/
def fetchDevicesApply (s : DashState) (raw : List RawDevice) : DashState :=
  let renamed := fetchDevicesNormalize raw
  { s with
    devices := renamed,
    selectedDevice := fetchDevicesSelect s.selectedDevice renamed }

/-- The synthetic telemetry sample installed by `fetchDeviceData`'s catch
branch (src/IoTDevices.js lines 341-359).  `now` is the failure time
(`new Date().toISOString()` as epoch milliseconds). -/
def fallbackTelemetrySample (deviceId : String) (now : ℚ) : TelemetrySample :=
  { device_id := deviceId
    session_id := "fallback-session"
    timestamp := now
    metrics := some
      { clicks_per_second := 4
        movements_count := 120
        dpi := 16000
        polling_rate := 1000
        avg_click_distance := 85/2
        button_count := 8 }
    status := some
      { under_attack := false
        attack_duration := some 0
        battery_level := some 85
        connection_quality := some 95 } }

/-- Handler `fetchDeviceData(deviceId)` (src/IoTDevices.js lines 332-361) applied to
an arrived result.  `result = some r` models a successful
`getIoTDeviceData` response whose `data` field is `r` (`none` inside models a
response without a `data` field, replaced by `[]` via `result.data || []`);
`result = none` models the catch branch (fetch rejected, non-success status,
or malformed response — all of which throw).  The success path stores
`result.data || []` without consulting `deviceId` or the live selection. -/
def fetchDeviceDataStep (s : DashState) (deviceId : String) (now : ℚ)
    (result : Option (Option (List TelemetrySample))) : DashState :=
  match result with
  | some r => { s with deviceData := r.getD [] }
  | none => { s with deviceData := [fallbackTelemetrySample deviceId now] }

/-- The synthetic alert installed by `fetchSecurityAlerts`'s catch branch
(src/IoTDevices.js lines 372-381): a critical `attack_detected` alert
timestamped at the moment of failure. -/
def fallbackAlert (now : ℚ) : SecurityAlert :=
  { timestamp := now
    event_type := "attack_detected"
    details := some { attack_type := "ping_flood", intensity := 72, threshold := 50 }
    severity := "critical" }

/-- Handler `fetchSecurityAlerts(deviceId)` (src/IoTDevices.js lines 363-383) applied
to an arrived result, with the same conventions as `fetchDeviceDataStep`. -/
def fetchSecurityAlertsStep (s : DashState) (deviceId : String) (now : ℚ)
    (result : Option (Option (List SecurityAlert))) : DashState :=
  match result with
  | some r => { s with securityAlerts := r.getD [] }
  | none =>
    let _ := deviceId
    { s with securityAlerts := [fallbackAlert now] }

/-- Query `getMostRecentData` (src/IoTDevices.js lines 394-397): last element of
`deviceData`, or none when empty. -/
def getMostRecentData (deviceData : List TelemetrySample) : Option TelemetrySample :=
  deviceData.getLast?

/-- Query `getDeviceStatus` (src/IoTDevices.js lines 405-409): the latest sample's
status, or `{ under_attack: false }` when there is no sample or the sample
has no status. -/
def getDeviceStatus (deviceData : List TelemetrySample) : DeviceStatus :=
  match getMostRecentData deviceData with
  | none => { under_attack := false, attack_duration := none,
              battery_level := none, connection_quality := none }
  | some recent =>
    match recent.status with
    | none => { under_attack := false, attack_duration := none,
                battery_level := none, connection_quality := none }
    | some st => st

/-- The recent-critical-alert test inside `renderDeviceStatus`
(src/IoTDevices.js lines 415-420): some alert has severity `"critical"` and
`(now - alertTime) / 1000 < 60` (times in milliseconds, difference converted
to seconds). -/
def hasRecentCriticalAlert (now : ℚ) (alerts : List SecurityAlert) : Bool :=
  alerts.any fun alert =>
    alert.severity == "critical" && decide ((now - alert.timestamp) / 1000 < 60)

/-- The attack verdict of `renderDeviceStatus` (src/IoTDevices.js line 423):
`(status && status.under_attack) || hasRecentCriticalAlert`. -/
def renderDeviceStatusIsAttacked (now : ℚ) (deviceData : List TelemetrySample)
    (alerts : List SecurityAlert) : Bool :=
  (getDeviceStatus deviceData).under_attack || hasRecentCriticalAlert now alerts

/-- The attack duration shown by `renderDeviceStatus`
(src/IoTDevices.js line 460): `status.attack_duration || 0`. -/
def displayedAttackDuration (deviceData : List TelemetrySample) : ℚ :=
  ((getDeviceStatus deviceData).attack_duration).getD 0

/-- An rgba color as produced by `getColor`'s template strings. -/
structure Rgba where
  r : ℚ
  g : ℚ
  b : ℚ
  a : ℚ
deriving DecidableEq, Repr

/-- The heatmap color mapping `getColor` (src/IoTDevices.js lines 111-119). -/
def getColor (value : ℚ) : Rgba :=
  if value = 0 then { r := 0, g := 0, b := 0, a := 0 }
  else if value < 10 then { r := 0, g := 0, b := 255, a := value / 20 }
  else if value < 30 then { r := 0, g := 255 - (value - 10) * 8, b := 255, a := 1/2 }
  else if value < 60 then { r := (value - 30) * 8, g := 255, b := 255 - (value - 30) * 8, a := 3/5 }
  else if value < 80 then { r := 255, g := 255 - (value - 60) * 12, b := 0, a := 7/10 }
  else { r := 255, g := 0, b := 0, a := 4/5 }

/-! Helper lemmas about `getColor`'s bands. -/

lemma getColor_band_30_60 {v : ℚ} (h1 : 30 ≤ v) (h2 : v < 60) :
    getColor v = { r := (v - 30) * 8, g := 255, b := 255 - (v - 30) * 8, a := 3/5 } := by
  unfold getColor
  have h0 : ¬ (v = 0) := by intro h; rw [h] at h1; norm_num at h1
  have h10 : ¬ (v < 10) := by linarith
  have h30 : ¬ (v < 30) := by linarith
  rw [if_neg h0, if_neg h10, if_neg h30, if_pos h2]

lemma getColor_ge_80 {v : ℚ} (h : 80 ≤ v) :
    getColor v = { r := 255, g := 0, b := 0, a := 4/5 } := by
  unfold getColor
  have h0 : ¬ (v = 0) := by intro hv; rw [hv] at h; norm_num at h
  have h10 : ¬ (v < 10) := by linarith
  have h30 : ¬ (v < 30) := by linarith
  have h60 : ¬ (v < 60) := by linarith
  have h80 : ¬ (v < 80) := not_lt.mpr h
  rw [if_neg h0, if_neg h10, if_neg h30, if_neg h60, if_neg h80]

end IoTDevices

namespace IoTDevices

open IoTDevices

/-- C3: the heatmap color mapping satisfies the band boundaries:
`getColor 0` is fully transparent; for `0 < v < 10` it returns the blue band
with alpha `v/20` (in particular at `9.99`); `getColor 10` falls in the
green-ramp band (lower bound inclusive, blue band's upper bound exclusive);
and every `v ≥ 80` yields the same solid red, so `getColor 100 = getColor 80`. -/
theorem heatmap_color_band_boundaries :
    (getColor 0 = { r := 0, g := 0, b := 0, a := 0 }) ∧
    (∀ v : ℚ, 0 < v → v < 10 → getColor v = { r := 0, g := 0, b := 255, a := v / 20 }) ∧
    (getColor (999/100) = { r := 0, g := 0, b := 255, a := (999/100) / 20 }) ∧
    (getColor 10 = { r := 0, g := 255 - (10 - 10) * 8, b := 255, a := 1/2 }) ∧
    (∀ v : ℚ, 80 ≤ v → getColor v = { r := 255, g := 0, b := 0, a := 4/5 }) ∧
    (getColor 100 = getColor 80) := by
  have hblue : ∀ v : ℚ, 0 < v → v < 10 →
      getColor v = { r := 0, g := 0, b := 255, a := v / 20 } := by
    intro v h1 h2
    unfold getColor
    rw [if_neg h1.ne', if_pos h2]
  have hred : ∀ v : ℚ, 80 ≤ v → getColor v = { r := 255, g := 0, b := 0, a := 4/5 } :=
    fun v h => getColor_ge_80 h
  refine ⟨by unfold getColor; norm_num, hblue, hblue _ (by norm_num) (by norm_num), ?_,
    hred, (hred 100 (by norm_num)).trans (hred 80 le_rfl).symm⟩
  unfold getColor
  norm_num

/-- Witness for C3: the blue band and the solid-red band evaluated at
concrete inputs. -/
theorem heatmap_color_band_boundaries_witness :
    getColor 5 = { r := 0, g := 0, b := 255, a := 5 / 20 } ∧
    getColor 90 = { r := 255, g := 0, b := 0, a := 4/5 } :=
  ⟨heatmap_color_band_boundaries.2.1 5 (by norm_num) (by norm_num),
   heatmap_color_band_boundaries.2.2.2.2.1 90 (by norm_num)⟩

/-- Counterexample to C4: on the band `30 ≤ v < 60` the green channel does
not ramp down — it is the constant 255 (the blue channel is the one that
ramps down): `getColor 40` and `getColor 50` have the same green value. -/
theorem heatmap_band_30_60_green_cex :
    ((30 : ℚ) ≤ 40 ∧ (40 : ℚ) < 50 ∧ (50 : ℚ) < 60) ∧
    (getColor 40).g = 255 ∧ (getColor 50).g = 255 ∧
    ¬ ((getColor 50).g < (getColor 40).g) := by
  have h40 := getColor_band_30_60 (v := 40) (by norm_num) (by norm_num)
  have h50 := getColor_band_30_60 (v := 50) (by norm_num) (by norm_num)
  rw [h40, h50]
  norm_num

/-- C4 amended: on the band `30 ≤ v < 60`, the red channel `(v-30)*8` ramps
up and the BLUE channel `255-(v-30)*8` ramps down, while the green channel is
fixed at 255 and the alpha at 0.6. -/
theorem heatmap_band_30_60_amended :
    ∀ v w : ℚ, 30 ≤ v → v < w → w < 60 →
      (getColor v).r < (getColor w).r ∧
      (getColor w).b < (getColor v).b ∧
      (getColor v).g = 255 ∧ (getColor v).a = 3/5 := by
  intro v w h1 h2 h3
  rw [getColor_band_30_60 h1 (by linarith), getColor_band_30_60 (by linarith) h3]
  refine ⟨by dsimp; linarith, by dsimp; linarith, rfl, rfl⟩

/-- Witness for the amended C4 at `v = 40`, `w = 50`. -/
theorem heatmap_band_30_60_amended_witness :
    (getColor 40).r < (getColor 50).r ∧
    (getColor 50).b < (getColor 40).b ∧
    (getColor 40).g = 255 ∧ (getColor 40).a = 3/5 :=
  heatmap_band_30_60_amended 40 50 (by norm_num) (by norm_num) (by norm_num)

/-- C1: the attack verdict is true iff the latest sample's self-reported flag
is true or some alert has severity `"critical"` strictly inside the 60-second
window; an alert aged exactly 60.000s (60000 ms) is excluded, one aged
59.999s (59999 ms) is included; with no sample the self-reported flag
defaults to false. -/
theorem attack_verdict_spec :
    ∀ (now : ℚ) (dd : List TelemetrySample) (alerts : List SecurityAlert)
      (et : String) (det : Option AlertDetails),
      (renderDeviceStatusIsAttacked now dd alerts = true ↔
        ((getDeviceStatus dd).under_attack = true ∨
          ∃ a ∈ alerts, a.severity = "critical" ∧ (now - a.timestamp) / 1000 < 60)) ∧
      hasRecentCriticalAlert now
        [{ timestamp := now - 60000, event_type := et, details := det,
           severity := "critical" }] = false ∧
      hasRecentCriticalAlert now
        [{ timestamp := now - 59999, event_type := et, details := det,
           severity := "critical" }] = true ∧
      (getDeviceStatus []).under_attack = false ∧
      renderDeviceStatusIsAttacked now [] alerts = hasRecentCriticalAlert now alerts := by
  intro now dd alerts et det
  refine ⟨?_, ?_, ?_, rfl, ?_⟩
  · simp only [renderDeviceStatusIsAttacked, hasRecentCriticalAlert, Bool.or_eq_true,
      List.any_eq_true, Bool.and_eq_true, beq_iff_eq, decide_eq_true_eq]
  · have h : now - (now - 60000) = 60000 := by ring
    simp only [hasRecentCriticalAlert, List.any_cons, List.any_nil, Bool.or_false, h]
    norm_num
  · have h : now - (now - 59999) = 59999 := by ring
    simp only [hasRecentCriticalAlert, List.any_cons, List.any_nil, Bool.or_false, h]
    norm_num
  · simp [renderDeviceStatusIsAttacked, getDeviceStatus, getMostRecentData]

/-- Counterexample to C2: a telemetry response requested for device `"A"`
arriving while the live selection is `"B"` is not discarded — the handler
stores it into the (single, shared) `deviceData` state unconditionally, which
is exactly the feed consulted for the newly selected device. -/
theorem stale_response_not_discarded_cex :
    (DashState.mk [] (some "B") [] []).selectedDevice ≠ some "A" ∧
    fetchDeviceDataStep (DashState.mk [] (some "B") [] []) "A" 0
        (some (some [TelemetrySample.mk "A" "s" 0 none none])) ≠
      DashState.mk [] (some "B") [] [] ∧
    (fetchDeviceDataStep (DashState.mk [] (some "B") [] []) "A" 0
        (some (some [TelemetrySample.mk "A" "s" 0 none none]))).deviceData =
      [TelemetrySample.mk "A" "s" 0 none none] := by
  refine ⟨by simp, ?_, rfl⟩
  intro h
  have h' := congrArg DashState.deviceData h
  simp [fetchDeviceDataStep] at h'

/-- C2 amended: responses are not tagged with a device id and are never
discarded — the success handler always overwrites the shared `deviceData`
state with the response's data, regardless of whether the id it was requested
for still matches the live selection. -/
theorem stale_response_overwrites_feed :
    ∀ (s : DashState) (requestedId : String) (now : ℚ) (data : List TelemetrySample),
      some requestedId ≠ s.selectedDevice →
      (fetchDeviceDataStep s requestedId now (some (some data))).deviceData = data ∧
      (fetchDeviceDataStep s requestedId now (some (some data))).selectedDevice =
        s.selectedDevice := by
  intro s requestedId now data _
  exact ⟨rfl, rfl⟩

/-- Witness for the amended C2 at a concrete mismatched request. -/
theorem stale_response_overwrites_feed_witness :
    (fetchDeviceDataStep (DashState.mk [] (some "B") [] []) "A" 0
        (some (some [TelemetrySample.mk "A" "s" 0 none none]))).deviceData =
      [TelemetrySample.mk "A" "s" 0 none none] ∧
    (fetchDeviceDataStep (DashState.mk [] (some "B") [] []) "A" 0
        (some (some [TelemetrySample.mk "A" "s" 0 none none]))).selectedDevice =
      some "B" :=
  stale_response_overwrites_feed (DashState.mk [] (some "B") [] []) "A" 0
    [TelemetrySample.mk "A" "s" 0 none none] (by simp)

/-- Counterexample to C8: samples are not appended in receipt order — each
successful poll replaces the feed wholesale, so after a second successful
cycle the sample received in the first cycle is gone. -/
theorem feed_replaced_not_appended_cex :
    (fetchDeviceDataStep
        (fetchDeviceDataStep (DashState.mk [] (some "d") [] []) "d" 0
          (some (some [TelemetrySample.mk "d" "s1" 0 none none])))
        "d" 1000 (some (some [TelemetrySample.mk "d" "s2" 1000 none none]))).deviceData =
      [TelemetrySample.mk "d" "s2" 1000 none none] ∧
    (fetchDeviceDataStep
        (fetchDeviceDataStep (DashState.mk [] (some "d") [] []) "d" 0
          (some (some [TelemetrySample.mk "d" "s1" 0 none none])))
        "d" 1000 (some (some [TelemetrySample.mk "d" "s2" 1000 none none]))).deviceData ≠
      [TelemetrySample.mk "d" "s1" 0 none none, TelemetrySample.mk "d" "s2" 1000 none none] ∧
    TelemetrySample.mk "d" "s1" 0 none none ∉
      (fetchDeviceDataStep
        (fetchDeviceDataStep (DashState.mk [] (some "d") [] []) "d" 0
          (some (some [TelemetrySample.mk "d" "s1" 0 none none])))
        "d" 1000 (some (some [TelemetrySample.mk "d" "s2" 1000 none none]))).deviceData := by
  refine ⟨rfl, by simp [fetchDeviceDataStep], by simp [fetchDeviceDataStep]⟩

/-- C8 amended: each successful poll cycle replaces the telemetry feed
wholesale with the response's array; samples held before the cycle are
retained only if they also occur in the new response. -/
theorem feed_wholesale_replacement :
    ∀ (s : DashState) (id : String) (now : ℚ) (data : List TelemetrySample),
      (fetchDeviceDataStep s id now (some (some data))).deviceData = data ∧
      (∀ x ∈ s.deviceData, x ∉ data →
        x ∉ (fetchDeviceDataStep s id now (some (some data))).deviceData) := by
  intro s id now data
  exact ⟨rfl, fun x _ hx => hx⟩

/-- Witness for the amended C8: a sample present before the cycle and absent
from the response is absent afterwards. -/
theorem feed_wholesale_replacement_witness :
    (fetchDeviceDataStep
        (DashState.mk [] (some "d") [TelemetrySample.mk "d" "s1" 0 none none] [])
        "d" 0 (some (some []))).deviceData = [] ∧
    TelemetrySample.mk "d" "s1" 0 none none ∉
      (fetchDeviceDataStep
        (DashState.mk [] (some "d") [TelemetrySample.mk "d" "s1" 0 none none] [])
        "d" 0 (some (some []))).deviceData :=
  ⟨(feed_wholesale_replacement _ "d" 0 []).1,
   (feed_wholesale_replacement _ "d" 0 []).2 _ (by simp) (by simp)⟩

/-- C9: a telemetry fetch failure (rejected, non-success status or malformed
response all reach the catch branch) is non-fatal: the handler replaces the
telemetry state with exactly one locally-synthesized sample whose status has
`under_attack = false` and `attack_duration = 0`, leaving the rest of the
state untouched. -/
theorem telemetry_failure_fallback :
    ∀ (s : DashState) (id : String) (now : ℚ),
      (fetchDeviceDataStep s id now none).deviceData = [fallbackTelemetrySample id now] ∧
      (fetchDeviceDataStep s id now none).deviceData.length = 1 ∧
      (fallbackTelemetrySample id now).status =
        some { under_attack := false, attack_duration := some 0,
               battery_level := some 85, connection_quality := some 95 } ∧
      (getDeviceStatus (fetchDeviceDataStep s id now none).deviceData).under_attack = false ∧
      displayedAttackDuration (fetchDeviceDataStep s id now none).deviceData = 0 ∧
      (fetchDeviceDataStep s id now none).selectedDevice = s.selectedDevice ∧
      (fetchDeviceDataStep s id now none).securityAlerts = s.securityAlerts := by
  intro s id now
  exact ⟨rfl, rfl, rfl, rfl, rfl, rfl, rfl⟩

/-- C10: when telemetry and alert fetch both fail in one cycle, the verdict
computed while the cycle's fallback alert is still inside the 60-second
window is `underAttack = true` with displayed attack duration 0: the alert
fallback installs one critical alert timestamped at the failure time, and the
OR-combination overrides the telemetry fallback's `under_attack = false`. -/
theorem dual_failure_verdict :
    ∀ (s : DashState) (id : String) (now tRead : ℚ),
      tRead - now < 60000 →
      renderDeviceStatusIsAttacked tRead
        (fetchSecurityAlertsStep (fetchDeviceDataStep s id now none) id now none).deviceData
        (fetchSecurityAlertsStep (fetchDeviceDataStep s id now none) id now none).securityAlerts
        = true ∧
      displayedAttackDuration
        (fetchSecurityAlertsStep (fetchDeviceDataStep s id now none) id now none).deviceData
        = 0 := by
  intro s id now tRead h
  refine ⟨?_, rfl⟩
  have hcrit : hasRecentCriticalAlert tRead [fallbackAlert now] = true := by
    simp only [hasRecentCriticalAlert, fallbackAlert, List.any_cons, List.any_nil,
      Bool.or_false, Bool.and_eq_true, beq_self_eq_true, decide_eq_true_eq, true_and]
    rw [div_lt_iff₀ (by norm_num : (0:ℚ) < 1000)]
    linarith
  simp only [renderDeviceStatusIsAttacked, fetchSecurityAlertsStep, fetchDeviceDataStep]
  rw [hcrit, Bool.or_true]

/-- Witness for C10 with the verdict read at the failure instant itself. -/
theorem dual_failure_verdict_witness :
    renderDeviceStatusIsAttacked 0
      (fetchSecurityAlertsStep (fetchDeviceDataStep (DashState.mk [] none [] []) "d" 0 none)
        "d" 0 none).deviceData
      (fetchSecurityAlertsStep (fetchDeviceDataStep (DashState.mk [] none [] []) "d" 0 none)
        "d" 0 none).securityAlerts = true ∧
    displayedAttackDuration
      (fetchSecurityAlertsStep (fetchDeviceDataStep (DashState.mk [] none [] []) "d" 0 none)
        "d" 0 none).deviceData = 0 :=
  dual_failure_verdict (DashState.mk [] none [] []) "d" 0 0 (by norm_num)

/-! Helper lemmas about the substring test and the renaming step, used for
the catalog-normalization claims. -/

@[simp] lemma startsWithChars_nil_pat (s : List Char) : startsWithChars s [] = true := by
  cases s <;> rfl

@[simp] lemma startsWithChars_nil_cons (p : Char) (ps : List Char) :
    startsWithChars [] (p :: ps) = false := rfl

@[simp] lemma startsWithChars_cons_cons (c : Char) (s : List Char) (p : Char) (ps : List Char) :
    startsWithChars (c :: s) (p :: ps) = (c == p && startsWithChars s ps) := rfl

@[simp] lemma includesChars_nil_pat (s : List Char) : includesChars s [] = true := by
  cases s <;> rfl

@[simp] lemma includesChars_nil_cons (p : Char) (ps : List Char) :
    includesChars [] (p :: ps) = false := rfl

@[simp] lemma includesChars_cons_cons (c : Char) (s : List Char) (p : Char) (ps : List Char) :
    includesChars (c :: s) (p :: ps) =
      (startsWithChars (c :: s) (p :: ps) || includesChars s (p :: ps)) := rfl

lemma startsWithChars_append {a p : List Char} (b : List Char)
    (h : startsWithChars a p = true) : startsWithChars (a ++ b) p = true := by
  induction p generalizing a with
  | nil => simp
  | cons q qs ih =>
    cases a with
    | nil => simp at h
    | cons c s =>
      simp only [List.cons_append, startsWithChars_cons_cons, Bool.and_eq_true] at h ⊢
      exact ⟨h.1, ih h.2⟩

lemma includesChars_append_left {a p : List Char} (b : List Char)
    (h : includesChars a p = true) : includesChars (a ++ b) p = true := by
  induction a with
  | nil =>
    cases p with
    | nil => simp
    | cons q qs => simp at h
  | cons c s ih =>
    cases p with
    | nil => simp
    | cons q qs =>
      simp only [includesChars_cons_cons, Bool.or_eq_true] at h
      simp only [List.cons_append, includesChars_cons_cons, Bool.or_eq_true]
      rcases h with h | h
      · exact Or.inl (startsWithChars_append b h)
      · exact Or.inr (ih h)

lemma includesChars_append_right {b p : List Char} (a : List Char)
    (h : includesChars b p = true) : includesChars (a ++ b) p = true := by
  induction a with
  | nil => exact h
  | cons c s ih =>
    cases p with
    | nil => simp
    | cons q qs =>
      simp only [List.cons_append, includesChars_cons_cons, Bool.or_eq_true]
      exact Or.inr ih

lemma strIncludes_append_left {s p : String} (t : String)
    (h : strIncludes s p = true) : strIncludes (s ++ t) p = true := by
  unfold strIncludes at h ⊢
  rw [String.data_append]
  exact includesChars_append_left _ h

lemma strIncludes_sensor_append (n : String) :
    strIncludes (n ++ " Sensor") "Sensor" = true := by
  unfold strIncludes
  rw [String.data_append]
  exact includesChars_append_right _ (by decide)

lemma updatedName_sensor (n : String) :
    strIncludes (if strIncludes n "Sensor" then n else n ++ " Sensor") "Sensor" = true := by
  cases hs : strIncludes n "Sensor" with
  | false => simpa [hs] using strIncludes_sensor_append n
  | true => simp [hs]

lemma updatedName_mono {n p : String} (h : strIncludes n p = true) :
    strIncludes (if strIncludes n "Sensor" then n else n ++ " Sensor") p = true := by
  cases hs : strIncludes n "Sensor" with
  | false => simpa [hs] using strIncludes_append_left " Sensor" h
  | true => simpa [hs] using h

lemma renameDevice_fixed_of_sensor {d : RawDevice}
    (hS : strIncludes d.name "Sensor" = true)
    (hm : (d.device_type == "mouse") = false)
    (hk : (d.device_type == "keyboard") = false)
    (hh : (d.device_type == "headset") = false) :
    renameDevice d = d := by
  unfold renameDevice
  split_ifs <;> simp_all

lemma renameDevice_fixed_of_mouse_name {d : RawDevice}
    (hS : strIncludes d.name "Sensor" = true)
    (hM : strIncludes d.name "Mouse" = true)
    (hm : (d.device_type == "mouse") = false) :
    renameDevice d = d := by
  unfold renameDevice
  simp [hS, hM, hm]

lemma renameDevice_fixed_of_keyboard_name {d : RawDevice}
    (hS : strIncludes d.name "Sensor" = true)
    (hK : strIncludes d.name "Keyboard" = true)
    (hm : (d.device_type == "mouse") = false)
    (hk : (d.device_type == "keyboard") = false) :
    renameDevice d = d := by
  unfold renameDevice
  cases hM : strIncludes d.name "Mouse" with
  | false => simp [hM, hm, hK, hS, hk]
  | true => simp [hM, hS, hm]

lemma renameDevice_idem (d : RawDevice) :
    renameDevice (renameDevice d) = renameDevice d := by
  by_cases hc1 : (d.device_type == "mouse" || strIncludes d.name "Mouse") = true
  · cases hm : d.device_type == "mouse" with
    | true =>
      have hd' : renameDevice d =
          { d with
            name := if strIncludes d.name "Sensor" then d.name else d.name ++ " Sensor",
            device_type := "mouse_sensor" } := by
        unfold renameDevice
        rw [if_pos hc1, if_pos hm]
      rw [hd']
      exact renameDevice_fixed_of_sensor (updatedName_sensor d.name)
        rfl rfl rfl
    | false =>
      have hM : strIncludes d.name "Mouse" = true := by
        rw [hm, Bool.false_or] at hc1
        exact hc1
      have hd' : renameDevice d =
          { d with
            name := if strIncludes d.name "Sensor" then d.name else d.name ++ " Sensor",
            device_type := d.device_type } := by
        unfold renameDevice
        rw [if_pos hc1, if_neg (by simp [hm])]
      rw [hd']
      exact renameDevice_fixed_of_mouse_name (updatedName_sensor d.name)
        (updatedName_mono hM) hm
  · have hc1' := hc1
    simp only [Bool.or_eq_true, not_or, Bool.not_eq_true] at hc1'
    obtain ⟨hm, hM⟩ := hc1'
    by_cases hc2 : (d.device_type == "keyboard" || strIncludes d.name "Keyboard") = true
    · cases hk : d.device_type == "keyboard" with
      | true =>
        have hd' : renameDevice d =
            { d with
              name := if strIncludes d.name "Sensor" then d.name else d.name ++ " Sensor",
              device_type := "keyboard_sensor" } := by
          unfold renameDevice
          rw [if_neg hc1, if_pos hc2, if_pos hk]
        rw [hd']
        exact renameDevice_fixed_of_sensor (updatedName_sensor d.name)
          rfl rfl rfl
      | false =>
        have hK : strIncludes d.name "Keyboard" = true := by
          rw [hk, Bool.false_or] at hc2
          exact hc2
        have hd' : renameDevice d =
            { d with
              name := if strIncludes d.name "Sensor" then d.name else d.name ++ " Sensor",
              device_type := d.device_type } := by
          unfold renameDevice
          rw [if_neg hc1, if_pos hc2, if_neg (by simp [hk])]
        rw [hd']
        exact renameDevice_fixed_of_keyboard_name (updatedName_sensor d.name)
          (updatedName_mono hK) hm hk
    · have hc2' := hc2
      simp only [Bool.or_eq_true, not_or, Bool.not_eq_true] at hc2'
      obtain ⟨hk, _⟩ := hc2'
      by_cases hc3 : (d.device_type == "headset" || strIncludes d.name "Headset") = true
      · cases hh : d.device_type == "headset" with
        | true =>
          have hd' : renameDevice d =
              { d with
                name := if strIncludes d.name "Sensor" then d.name else d.name ++ " Sensor",
                device_type := "headset_sensor" } := by
            unfold renameDevice
            rw [if_neg hc1, if_neg hc2, if_pos hc3, if_pos hh]
          rw [hd']
          exact renameDevice_fixed_of_sensor (updatedName_sensor d.name)
            rfl rfl rfl
        | false =>
          have hd' : renameDevice d =
              { d with
                name := if strIncludes d.name "Sensor" then d.name else d.name ++ " Sensor",
                device_type := d.device_type } := by
            unfold renameDevice
            rw [if_neg hc1, if_neg hc2, if_pos hc3, if_neg (by simp [hh])]
          rw [hd']
          exact renameDevice_fixed_of_sensor (updatedName_sensor d.name) hm hk hh
      · have hd : renameDevice d = d := by
          unfold renameDevice
          rw [if_neg hc1, if_neg hc2, if_neg hc3]
        rw [hd, hd]

lemma renameDevice_device_type (d : RawDevice) :
    (renameDevice d).device_type = d.device_type ∨
    (renameDevice d).device_type = "mouse_sensor" ∨
    (renameDevice d).device_type = "keyboard_sensor" ∨
    (renameDevice d).device_type = "headset_sensor" := by
  unfold renameDevice
  split_ifs <;> simp

lemma isIoTDevice_renameDevice {d : RawDevice} (h : isIoTDevice d = true) :
    isIoTDevice (renameDevice d) = true := by
  rcases renameDevice_device_type d with h' | h' | h' | h' <;>
    simp only [isIoTDevice, h'] at h ⊢
  · exact h
  · decide
  · decide
  · decide

/-- C6: normalization is idempotent — applying the filter-and-normalize step
of `fetchDevices` to its own output yields an identical list. -/
theorem normalize_idempotent :
    ∀ ds : List RawDevice,
      fetchDevicesNormalize (fetchDevicesNormalize ds) = fetchDevicesNormalize ds := by
  intro ds
  unfold fetchDevicesNormalize
  rw [List.filter_eq_self.mpr, List.map_map]
  · exact List.map_congr_left fun a _ => renameDevice_idem a
  · intro a ha
    obtain ⟨b, hb, rfl⟩ := List.mem_map.mp ha
    exact isIoTDevice_renameDevice (List.of_mem_filter hb)

/-- Counterexample to C5: a device with legacy kind `"keyboard"` whose name
contains `"Mouse"` is captured by the mouse branch (which tests the name as
well as the kind), so its legacy kind is NOT rewritten to
`"keyboard_sensor"` — normalization appends `" Sensor"` but leaves the kind
`"keyboard"`. -/
theorem legacy_kind_not_rewritten_cex :
    isIoTDevice (RawDevice.mk "k1" "keyboard" "Mouse Pad") = true ∧
    fetchDevicesNormalize [RawDevice.mk "k1" "keyboard" "Mouse Pad"] =
      [RawDevice.mk "k1" "keyboard" "Mouse Pad Sensor"] ∧
    (RawDevice.mk "k1" "keyboard" "Mouse Pad Sensor").device_type ≠ "keyboard_sensor" := by
  exact ⟨by decide, by decide, by decide⟩

/-- C5 amended: each device is handled by the first branch (mouse, keyboard,
headset, in order) whose legacy kind matches the device's kind or whose
capitalized marker word occurs in the name; that branch appends `" Sensor"`
to the name unless the name already contains `"Sensor"`, and rewrites the
kind to its sensor-qualified equivalent only when the kind equals that
branch's legacy kind.  In particular a legacy kind is rewritten whenever the
name does not divert the device to an earlier branch, and
`{client_id:"m1", device_type:"mouse", name:"Mouse"}` normalizes to kind
`"mouse_sensor"` and name `"Mouse Sensor"`. -/
theorem normalize_branch_behavior :
    ∀ d : RawDevice,
      (d.device_type = "mouse" →
        renameDevice d =
          { d with
            name := if strIncludes d.name "Sensor" then d.name else d.name ++ " Sensor",
            device_type := "mouse_sensor" }) ∧
      (d.device_type = "keyboard" → strIncludes d.name "Mouse" = false →
        renameDevice d =
          { d with
            name := if strIncludes d.name "Sensor" then d.name else d.name ++ " Sensor",
            device_type := "keyboard_sensor" }) ∧
      (d.device_type = "headset" → strIncludes d.name "Mouse" = false →
        strIncludes d.name "Keyboard" = false →
        renameDevice d =
          { d with
            name := if strIncludes d.name "Sensor" then d.name else d.name ++ " Sensor",
            device_type := "headset_sensor" }) ∧
      fetchDevicesNormalize [RawDevice.mk "m1" "mouse" "Mouse"] =
        [RawDevice.mk "m1" "mouse_sensor" "Mouse Sensor"] := by
  intro d
  refine ⟨?_, ?_, ?_, by decide⟩
  · intro ht
    unfold renameDevice
    rw [if_pos (by simp [ht]), if_pos (by simp [ht])]
  · intro ht hM
    unfold renameDevice
    rw [if_neg (by simp [ht, hM]), if_pos (by simp [ht]), if_pos (by simp [ht])]
  · intro ht hM hK
    unfold renameDevice
    rw [if_neg (by simp [ht, hM]), if_neg (by simp [ht, hK]),
      if_pos (by simp [ht]), if_pos (by simp [ht])]

/-- Witness for the amended C5: the mouse branch applied to the `m1` device. -/
theorem normalize_branch_behavior_witness :
    renameDevice (RawDevice.mk "m1" "mouse" "Mouse") =
      { RawDevice.mk "m1" "mouse" "Mouse" with
        name := if strIncludes "Mouse" "Sensor" then "Mouse" else "Mouse" ++ " Sensor",
        device_type := "mouse_sensor" } :=
  (normalize_branch_behavior (RawDevice.mk "m1" "mouse" "Mouse")).1 rfl

/-- Counterexample to C7: a catalog refresh whose device list is nonempty and
does not contain the currently selected id leaves the stale selection in
place rather than selecting the first device — and a refresh returning no
devices does not clear the selection either.  The auto-select only runs when
the selection was previously empty. -/
theorem catalog_vanished_selection_cex :
    (fetchDevicesApply
        (DashState.mk [RawDevice.mk "x1" "mouse_sensor" "X Sensor"] (some "x1") [] [])
        [RawDevice.mk "m1" "mouse" "Mouse"]).devices =
      [RawDevice.mk "m1" "mouse_sensor" "Mouse Sensor"] ∧
    (fetchDevicesApply
        (DashState.mk [RawDevice.mk "x1" "mouse_sensor" "X Sensor"] (some "x1") [] [])
        [RawDevice.mk "m1" "mouse" "Mouse"]).selectedDevice = some "x1" ∧
    some "x1" ≠ some "m1" ∧
    "x1" ∉ ([RawDevice.mk "m1" "mouse_sensor" "Mouse Sensor"].map RawDevice.client_id) ∧
    (fetchDevicesApply
        (DashState.mk [RawDevice.mk "x1" "mouse_sensor" "X Sensor"] (some "x1") [] [])
        []).selectedDevice ≠ none := by
  exact ⟨by decide, by decide, by decide, by decide, by decide⟩

/-- C7 amended: on catalog refresh the stored list becomes the normalized
result, but the selection is auto-set only when it was previously empty (to
the first device of a nonempty result); a non-empty existing selection is
always left unchanged, even when its id is absent from the refreshed list,
and an empty refreshed list never empties or changes the selection. -/
theorem catalog_selection_only_when_empty :
    ∀ (s : DashState) (raw : List RawDevice),
      (fetchDevicesApply s raw).devices = fetchDevicesNormalize raw ∧
      (∀ d rest, s.selectedDevice = none → fetchDevicesNormalize raw = d :: rest →
        (fetchDevicesApply s raw).selectedDevice = some d.client_id) ∧
      (∀ id, s.selectedDevice = some id →
        (fetchDevicesApply s raw).selectedDevice = some id) ∧
      (fetchDevicesNormalize raw = [] →
        (fetchDevicesApply s raw).selectedDevice = s.selectedDevice) := by
  intro s raw
  refine ⟨rfl, ?_, ?_, ?_⟩
  · intro d rest h1 h2
    simp only [fetchDevicesApply, h1, h2, fetchDevicesSelect]
  · intro id h
    cases hnr : fetchDevicesNormalize raw with
    | nil => simp only [fetchDevicesApply, hnr, h, fetchDevicesSelect]
    | cons a as => simp only [fetchDevicesApply, hnr, h, fetchDevicesSelect]
  · intro h
    cases hs : s.selectedDevice with
    | none => simp only [fetchDevicesApply, h, hs, fetchDevicesSelect]
    | some id => simp only [fetchDevicesApply, h, hs, fetchDevicesSelect]

/-- Witness for the amended C7: a kept stale selection and an auto-selected
first device at concrete inputs. -/
theorem catalog_selection_only_when_empty_witness :
    (fetchDevicesApply (DashState.mk [] (some "x1") [] []) []).selectedDevice = some "x1" ∧
    (fetchDevicesApply (DashState.mk [] none [] [])
        [RawDevice.mk "m1" "mouse" "Mouse"]).selectedDevice = some "m1" :=
  ⟨(catalog_selection_only_when_empty (DashState.mk [] (some "x1") [] []) []).2.2.1
      "x1" rfl,
   (catalog_selection_only_when_empty (DashState.mk [] none [] [])
      [RawDevice.mk "m1" "mouse" "Mouse"]).2.1
      (RawDevice.mk "m1" "mouse_sensor" "Mouse Sensor") [] rfl (by decide)⟩

end IoTDevices
